import Mathlib

/-!
Shallow embedding of the WikiAPI crawler core (`WikiCrawler.py`,
`WikiCategory.py`, `WikiArticle.py`) and proofs about the claims of its
specification.

Modelling conventions:
* Python `dict` (insertion ordered, value replaced in place on re-assignment,
  new keys appended) is embedded as an association list `List (String × α)`
  with `pyDictGet?` / `pyDictSet` / `pyDictUpdate`.
* `defaultdict(list)` lookup (`self.category_tree[k]`) is `ddGet`, returning
  `[]` for an absent key; `d[k].append(v)` is `ddAppend`.
* Python `set` values are embedded as duplicate-free lists kept in
  first-discovery order, a deterministic stand-in for Python's unspecified
  set iteration order (`pySetInsert`, `pySetUnion`, `pySetDiff`); `len` is
  the list length.
* Exceptions are embedded with `Except PyErr`; external collaborators
  (HTTP fetch via `requests`/`BeautifulSoup`, regular-expression matching
  via `re.match`, the `md5` digest from `hashlib`) are parameters of the
  definitions: a total fetch map, an abstract match predicate
  `matchRule : rule → name → Bool`, and an abstract digest `String → String`.
* Console output matters only where the source mistakenly prints to stdout
  instead of a file, so the filesystem model `ArchiveFS` carries a `stdout`
  trace next to the archive files.
-/

namespace WikiAPI

/-- Python exception kinds raised by the embedded code. -/
inductive PyErr : Type where
  | attributeError
  | typeError
  | valueError
  | keyError
  | indexError
  | fetchError
  | notFound
  deriving DecidableEq, Repr

instance {ε α : Type} [DecidableEq ε] [DecidableEq α] : DecidableEq (Except ε α)
  | .error a, .error b =>
    if h : a = b then .isTrue (h ▸ rfl)
    else .isFalse (fun hc => h (Except.error.inj hc))
  | .error _, .ok _ => .isFalse (fun hc => Except.noConfusion hc)
  | .ok _, .error _ => .isFalse (fun hc => Except.noConfusion hc)
  | .ok a, .ok b =>
    if h : a = b then .isTrue (h ▸ rfl)
    else .isFalse (fun hc => h (Except.ok.inj hc))

/-! ## Python sets as duplicate-free lists

A Python `set` is embedded as a duplicate-free `List String`; `s.add`/
`s.update` keep the first-discovery order, which serves as the
deterministic stand-in for Python's unspecified set iteration order, and
`len` is the list length. -/

/-- `s.add(x)` on a Python set. -/
def pySetInsert (s : List String) (x : String) : List String :=
  if x ∈ s then s else s ++ [x]

/-- `s.update(l)` on a Python set. -/
def pySetUnion (s : List String) (l : List String) : List String :=
  l.foldl pySetInsert s

/-- `s.difference_update(t)` on a Python set. -/
def pySetDiff (s t : List String) : List String :=
  s.filter (fun x => x ∉ t)

/-! ## Structurally recursive string helpers

These mirror `str.startswith`-style prefix tests (what the anchored
`re.match('^Category:.*', name)` amounts to), `str.split(sep)` for a
one-character separator, and `str.strip()`; they recurse over the
character list so that concrete instances reduce inside the kernel. -/

/-- Anchored literal prefix test on strings. -/
def strIsPrefixOf (p s : String) : Bool :=
  p.data.isPrefixOf s.data

/-- `str.split(c)` over the character list: split at every occurrence of
the separator, keeping empty parts. -/
def splitOnChar (c : Char) : List Char → List (List Char)
  | [] => [[]]
  | x :: xs =>
    let rest := splitOnChar c xs
    if x == c then [] :: rest
    else
      match rest with
      | [] => [[x]]
      | g :: gs => (x :: g) :: gs

/-- `line.split('=')`. -/
def pySplitEq (s : String) : List String :=
  (splitOnChar '=' s.data).map String.mk

/-- `str.strip()`: drop surrounding whitespace. -/
def pyStrip (s : String) : String :=
  String.mk (((s.data.dropWhile Char.isWhitespace).reverse.dropWhile
    Char.isWhitespace).reverse)

/-! ## Python dictionaries as insertion-ordered association lists -/

/-- `d.get(k)` on a Python dict: first (unique) entry with the key. -/
def pyDictGet? {α : Type} : List (String × α) → String → Option α
  | [], _ => none
  | p :: rest, k => if p.1 == k then some p.2 else pyDictGet? rest k

/-- `d[k] = v` on a Python dict: replace the value in place if the key is
present, otherwise append the new entry. -/
def pyDictSet {α : Type} : List (String × α) → String → α → List (String × α)
  | [], k, v => [(k, v)]
  | p :: rest, k, v =>
    if p.1 == k then (p.1, v) :: rest else p :: pyDictSet rest k v

/-- `d.update(other)` on Python dicts. -/
def pyDictUpdate {α : Type} (d other : List (String × α)) : List (String × α) :=
  other.foldl (fun acc kv => pyDictSet acc kv.1 kv.2) d

/-- `defaultdict(list)` lookup: `self.category_tree[k]`, defaulting to `[]`. -/
def ddGet (d : List (String × List String)) (k : String) : List String :=
  (pyDictGet? d k).getD []

/-- `self.category_tree[k].append(v)` on the `defaultdict(list)`. -/
def ddAppend (d : List (String × List String)) (k : String) (v : String) :
    List (String × List String) :=
  pyDictSet d k (ddGet d k ++ [v])

/-! ## WikiCategory construction (`WikiCategory.__init__`) -/

/-- Name/link pair computed by `WikiCategory.__init__`: the name gets the
`Category:` marker if absent, and a missing link is derived from the
canonical name with spaces replaced by underscores. -/
structure WikiCategoryId where
  name : String
  link : String
  deriving DecidableEq, Repr

/-- `WikiCategory(name, link=link)` (identifier part; page loading is the
external fetch collaborator). -/
def mkWikiCategory (name : String) (link : Option String) : WikiCategoryId :=
  let name1 := if strIsPrefixOf "Category:" name then name else "Category:" ++ name
  let link1 :=
    match link with
    | some l => l
    | none => "/wiki/" ++ (name1.replace " " "_")
  ⟨name1, link1⟩

/-- Structured records the external fetcher returns for one category page:
`getSubCategories()` and `getPages()` as link ↦ title dictionaries. -/
structure FetchResult where
  subcategories : List (String × String)
  pages : List (String × String)

/-- Value stored in `article_texts`: the text itself when no archive path is
configured, otherwise the `True` marker (`WikiCrawler.saveArticle`). -/
inductive TextVal : Type where
  | stored (lines : List String)
  | archived
  deriving DecidableEq, Repr

/-- The mutable fields of a `WikiCrawler` instance that the crawler core
reads or writes (`WikiCrawler._initVariables`).  `broken_links` is `none`
because `_initVariables` never initializes that attribute. -/
structure CrawlState where
  category_tree : List (String × List String) := []
  category_list : List (String × String) := []
  article_list : List (String × String) := []
  open_categories : List (String × String) := []
  skip_categories : List String := []
  skip_category_rules : List String := []
  article_texts : List (String × TextVal) := []
  article_links : List (String × List String) := []
  article_categories : List (String × List String) := []
  article_hieracy_categories : List (String × List String) := []
  skip_articles : List String := []
  skip_article_rules : List String := []
  skip_article_categories : List String := []
  skip_article_category_rules : List String := []
  skipped_articles : List (String × String) := []
  broken_links : Option (List String) := none
  archive_path : Option String := none
  save_path : Option String := none
  deriving DecidableEq

/-- `WikiCrawler.addCategory(name, link, root)`: record the category's own
parent list (replaced by `root`, or `['']` when no root is given), then for
every fetched subcategory and page record an edge back to this category and
union the discoveries into the corresponding indices. -/
def addCategory (fetchCat : String → FetchResult) (st : CrawlState)
    (name : String) (link : Option String) (root : Option (List String)) :
    CrawlState × WikiCategoryId :=
  let cat := mkWikiCategory name link
  let tree1 := pyDictSet st.category_tree cat.link (root.getD [""])
  let subs := (fetchCat cat.link).subcategories
  let clist := pyDictUpdate st.category_list subs
  let opens := pyDictUpdate st.open_categories subs
  let tree2 := subs.foldl (fun t kv => ddAppend t kv.1 cat.link) tree1
  let pages := (fetchCat cat.link).pages
  let alist := pyDictUpdate st.article_list pages
  let tree3 := pages.foldl (fun t kv => ddAppend t kv.1 cat.link) tree2
  ({ st with
      category_tree := tree3
      category_list := clist
      open_categories := opens
      article_list := alist }, cat)

/-- `WikiCrawler.categoryIsValid`: explicit skip set first, then the pattern
rules in order (`re.match` is the abstract `matchRule`). -/
def categoryIsValid (matchRule : String → String → Bool) (st : CrawlState)
    (name : String) : Bool :=
  if name ∈ st.skip_categories then false
  else if st.skip_category_rules.any (fun r => matchRule r name) then false
  else true

/-- One iteration of the `for lvl in range(levels)` loop of
`WikiCrawler.followDeeper`: snapshot `open_categories`, clear it, and expand
every valid category of the snapshot with its currently accumulated root. -/
def levelStep (matchRule : String → String → Bool)
    (fetchCat : String → FetchResult) (st : CrawlState) : CrawlState :=
  let process := st.open_categories
  let st1 := { st with open_categories := [] }
  process.foldl
    (fun s kv =>
      if categoryIsValid matchRule s kv.2 then
        let root := ddGet s.category_tree kv.1
        (addCategory fetchCat s kv.2 (some kv.1) (some root)).1
      else s)
    st1

/-- `WikiCrawler.followDeeper(levels)`. -/
def followDeeper (matchRule : String → String → Bool)
    (fetchCat : String → FetchResult) (levels : Nat) (st : CrawlState) :
    CrawlState :=
  (List.range levels).foldl (fun s _ => levelStep matchRule fetchCat s) st

/-! ## AncestorResolver (`WikiCrawler.retrieveCategories`) -/

/-- The `while` loop of `WikiCrawler.retrieveCategories`.  The Python
condition is `any(a for a in ancestor_generation) > 0 and len(ancestors) <
100`: `any` is true exactly when the generation holds a non-empty (truthy)
string, and comparing the boolean with `0` keeps its truth value.  Each pass
takes the union of the parents of the current generation, removes already
visited nodes, and adds the remainder to the visited set.  The `fuel`
argument bounds the recursion; 101 passes always suffice (proved below), so
`retrieveAncestorsOf` runs the loop with fuel 101. -/
def ancestorLoop (tree : String → List String) :
    Nat → List String → List String → List String
  | 0, _, anc => anc
  | fuel + 1, gen, anc =>
    if (gen.any (fun a => a != "")) ∧ anc.length < 100 then
      let nextGen :=
        pySetDiff (gen.foldl (fun ng p => pySetUnion ng (tree p)) []) anc
      ancestorLoop tree fuel nextGen (pySetUnion anc nextGen)
    else anc

/-- The article-name resolution of `WikiCrawler.retrieveCategories`:
`[link for link, name in self.article_list.items() if name == article][0]`.
Indexing `[0]` raises `IndexError` when no display name matches; with
several matches the first entry of the dict wins. -/
def resolveArticleLink (article_list : List (String × String))
    (article : String) : Except PyErr String :=
  match (article_list.filter (fun p => p.2 == article)).map Prod.fst with
  | [] => .error .indexError
  | l :: _ => .ok l

/-- The ancestor set computed by `WikiCrawler.retrieveCategories` before the
final renaming: seed generation = the article's direct parents, then the
`while` loop. -/
def retrieveAncestorsOf (st : CrawlState) (article : String) :
    Except PyErr (List String) := do
  let link ← resolveArticleLink st.article_list article
  pure (ancestorLoop (ddGet st.category_tree) 101
    (pySetUnion [] (ddGet st.category_tree link)) [])

/-- Final list comprehension of `retrieveCategories`:
`[self.category_list[a].replace('Category:', '') for a in ancestors if not
a == '']`; a missing `category_list` key raises `KeyError`.  The unordered
Python set is iterated in its first-discovery order. -/
def retrieveCategoriesE (st : CrawlState) (article : String) :
    Except PyErr (List String) := do
  let anc ← retrieveAncestorsOf st article
  (anc.filter (fun a => a ≠ "")).mapM (fun a =>
    match pyDictGet? st.category_list a with
    | some nm => Except.ok (nm.replace "Category:" "")
    | none => Except.error PyErr.keyError)

/-! ## Article-level skip rules -/

/-- `WikiCrawler.articleIsValid`.  Both skip branches execute
`self.skipped_articles.append[name] = ...`; `skipped_articles` is a `dict`
(set up by `_initVariables`) and has no `append` attribute, so each match
raises `AttributeError` instead of recording the reason and returning
`False`. -/
def articleIsValid (matchRule : String → String → Bool) (st : CrawlState)
    (name : String) : Except PyErr Bool :=
  if name ∈ st.skip_articles then .error .attributeError
  else
    match st.skip_article_rules.find? (fun r => matchRule r name) with
    | some _ => .error .attributeError
    | none => .ok true

/-- The loop body of `WikiCrawler.articleCategoriesAreValid` over the
category titles: explicit category set first, then the category pattern
rules; the first match records its reason in `skipped_articles` (this method
assigns `self.skipped_articles[name] = ...` correctly) and rejects. -/
def articleCategoriesAreValidGo (matchRule : String → String → Bool)
    (skipCats skipCatRules : List String) (name : String)
    (skipped : List (String × String)) :
    List String → Bool × List (String × String)
  | [] => (true, skipped)
  | c :: rest =>
    if c ∈ skipCats then
      (false, pyDictSet skipped name ("Category: " ++ c))
    else
      match skipCatRules.find? (fun r => matchRule r c) with
      | some r => (false, pyDictSet skipped name ("Rule: " ++ r))
      | none =>
        articleCategoriesAreValidGo matchRule skipCats skipCatRules name
          skipped rest

/-- `WikiCrawler.articleCategoriesAreValid(name, article_categories)`;
returns the verdict together with the updated `skipped_articles` dict. -/
def articleCategoriesAreValid (matchRule : String → String → Bool)
    (st : CrawlState) (name : String)
    (article_categories : List (String × String)) :
    Bool × List (String × String) :=
  articleCategoriesAreValidGo matchRule st.skip_article_categories
    st.skip_article_category_rules name st.skipped_articles
    (article_categories.map Prod.snd)

/-! ## ArchiveStore (`saveArticle`, `writeMetaInfo`, `readIndex`) -/

/-- Files written under the archive root plus the console, which receives
the output of the plain `print` call in `saveArticle`. -/
structure ArchiveFS where
  indexFile : List String := []
  stdout : List String := []
  textFiles : List (String × List String) := []
  metaFiles : List (String × List String) := []
  snapshots : Nat := 0
  deriving DecidableEq

/-- A value of the `meta_info` dict: a plain string or a list (list values
are comma-joined when the meta file is written). -/
inductive MetaVal : Type where
  | s (v : String)
  | l (v : List String)
  deriving DecidableEq, Repr

/-- Rendering of one meta value in `writeMetaInfo`:
`", ".join(value)` for lists. -/
def metaRender : MetaVal → String
  | .s v => v
  | .l v => String.intercalate ", " v

/-- `WikiCrawler.saveArticle(article_link, article_text)`.  The text file is
written under the digest name, but the closing `print(f'{identifyer}=
{article_link}')` has no `file=fp` argument, so the index line goes to
stdout and `index.txt` is left untouched. -/
def saveArticle (md5hex : String → String) (st : CrawlState)
    (fs : ArchiveFS) (article_link : String) (article_text : List String) :
    CrawlState × ArchiveFS :=
  let saveLink : TextVal :=
    if st.archive_path = none then .stored article_text else .archived
  let st1 := { st with
    article_texts := pyDictSet st.article_texts article_link saveLink }
  match st.archive_path with
  | none => (st1, fs)
  | some _ =>
    let dg := md5hex article_link
    let fs1 := { fs with
      textFiles := pyDictSet fs.textFiles (dg ++ ".txt") article_text
      stdout := fs.stdout ++ [dg ++ "=" ++ article_link] }
    (st1, fs1)

/-- List value of a meta field, when present. -/
def metaListField (meta : List (String × MetaVal)) (k : String) :
    Option (List String) :=
  match pyDictGet? meta k with
  | some (.l v) => some v
  | _ => none

/-- `WikiCrawler.writeMetaInfo(article_link, meta_infos)`: copy the list
fields into the in-memory indices, then (when an archive path is set) write
the `<digest>.meta` file with `Field: value` lines, list values
comma-joined. -/
def writeMetaInfo (md5hex : String → String) (st : CrawlState)
    (fs : ArchiveFS) (article_link : String)
    (meta_infos : List (String × MetaVal)) : CrawlState × ArchiveFS :=
  let st1 :=
    match metaListField meta_infos "Article_categories" with
    | some v =>
      { st with article_categories := pyDictSet st.article_categories article_link v }
    | none => st
  let st2 :=
    match metaListField meta_infos "Hierachical_categories" with
    | some v =>
      { st1 with article_hieracy_categories :=
          pyDictSet st1.article_hieracy_categories article_link v }
    | none => st1
  let st3 :=
    match metaListField meta_infos "Article_links" with
    | some v =>
      { st2 with article_links := pyDictSet st2.article_links article_link v }
    | none => st2
  match st3.archive_path with
  | none => (st3, fs)
  | some _ =>
    let dg := md5hex article_link
    let lines := meta_infos.map (fun kv => kv.1 ++ ": " ++ metaRender kv.2)
    (st3, { fs with metaFiles := pyDictSet fs.metaFiles (dg ++ ".meta") lines })

/-- `WikiCrawler.readIndex` on the lines of `index.txt`:
`_, link = line.strip().split('=')` demands exactly two parts around `=`;
any other shape raises `ValueError` and aborts the whole read. -/
def readIndexLines : List String → Except PyErr (List String)
  | [] => .ok []
  | line :: rest =>
    match pySplitEq (pyStrip line) with
    | [_, l] => (readIndexLines rest).map (fun ls => l :: ls)
    | _ => .error .valueError

/-- Well-formedness of one index line: exactly one `=` separator. -/
def indexLineWF (line : String) : Bool :=
  (pySplitEq (pyStrip line)).length == 2

/-- The link recorded on a well-formed index line. -/
def indexLineLink (line : String) : String :=
  (pySplitEq (pyStrip line)).getD 1 ""

/-! ## CrawlOrchestrator (`WikiCrawler.collectArticles`) -/

/-- Structured records the external fetcher/parser produces for one article
page (`WikiArticle`): `getHeadCategories()`, `getLinks()`, `getText()`. -/
structure ArticleData where
  headCategories : List (String × String)
  links : List (String × String)
  text : List String

/-- Substring test (`needle in haystack` on Python strings), via
`String.splitOn`: the needle occurs iff splitting yields more than one
part.  Only used with the non-empty needle `" stubs"`. -/
def strContains (hay needle : String) : Bool :=
  (hay.splitOn needle).length != 1

/-- `WikiCrawler.collectMetaInfo(name, article_link, article_categories,
categories)`: always records `Article` and `Link`; with `categories` set it
calls `retrieveCategories` (which may raise) for the hierarchical list and
keeps the direct categories whose title lacks the substring `" stubs"`,
stripping the `Category:` marker. -/
def collectMetaInfo (st : CrawlState) (name article_link : String)
    (article_categories : List (String × String)) (categories : Bool) :
    Except PyErr (List (String × MetaVal)) := do
  let meta : List (String × MetaVal) :=
    [("Article", .s name), ("Link", .s article_link)]
  if categories then
    let hier ← retrieveCategoriesE st name
    let meta1 := pyDictUpdate meta [("Hierachical_categories", .l hier)]
    let directs :=
      ((article_categories.map Prod.snd).filter
        (fun c => !(strContains c " stubs"))).map
        (fun c => c.replace "Category:" "")
    pure (pyDictUpdate meta1 [("Article_categories", .l directs)])
  else
    pure meta

/-- The checkpoint check at the end of each `collectArticles` iteration:
`if hasattr(self, 'save_path') and (i+1) % save_intervall == 0:
self.save(self.save_path)`.  The dill snapshot is modelled by bumping the
snapshot counter. -/
def maybeSnapshot (st : CrawlState) (fs : ArchiveFS) (i save_intervall : Nat) :
    ArchiveFS :=
  if st.save_path.isSome ∧ (i + 1) % save_intervall == 0 then
    { fs with snapshots := fs.snapshots + 1 }
  else fs

/-- The body of the `for i, article_link in enumerate(articles_to_collect)`
loop of `WikiCrawler.collectArticles`.  On a failed page load the `except`
branch runs `self.broken_links.append(f"Link broken: {article_link}:" + e)`:
the attribute `broken_links` was never initialized, so the lookup raises
`AttributeError`; were it present, concatenating a `str` with the exception
object would raise `TypeError`.  Either way the handler itself raises and
the loop dies instead of continuing. -/
def collectStep (md5hex : String → String)
    (matchRule : String → String → Bool)
    (fetchArticle : String → String → Except PyErr ArticleData)
    (links text categories : Bool) (save_intervall : Nat)
    (acc : CrawlState × ArchiveFS) (i : Nat) (article_link : String) :
    Except PyErr (CrawlState × ArchiveFS) := do
  let (st, fs) := acc
  let name ←
    match pyDictGet? st.article_list article_link with
    | some n => pure n
    | none => throw PyErr.keyError
  let v1 ← articleIsValid matchRule st name
  let page ←
    match fetchArticle name article_link with
    | .ok p => pure p
    | .error _ =>
      throw (match st.broken_links with
        | none => PyErr.attributeError
        | some _ => PyErr.typeError)
  let cats := page.headCategories
  let verdict := articleCategoriesAreValid matchRule st name cats
  let st1 := { st with skipped_articles := verdict.2 }
  if v1 && verdict.1 then
    let meta ← collectMetaInfo st1 name article_link cats categories
    let meta1 :=
      if links then
        pyDictUpdate meta [("Article_links", .l (page.links.map Prod.fst))]
      else meta
    let sf :=
      if text then saveArticle md5hex st1 fs article_link page.text
      else (st1, fs)
    let wf := writeMetaInfo md5hex sf.1 sf.2 article_link meta1
    pure (wf.1, maybeSnapshot wf.1 wf.2 i save_intervall)
  else
    pure (st1, maybeSnapshot st1 fs i save_intervall)

/-- The pending-article computation at the top of `collectArticles`:
`articles_to_collect = set(self.article_list) - set(artilces_loaded)`, where
the loaded links come from `readIndex()` when an archive path is set and
from `article_texts.keys()` otherwise.  The set difference is iterated in
`article_list` key order. -/
def pendingArticles (st : CrawlState) (fs : ArchiveFS) :
    Except PyErr (List String) := do
  let loaded ←
    match st.archive_path with
    | some _ => readIndexLines fs.indexFile
    | none => pure (st.article_texts.map Prod.fst)
  pure ((st.article_list.map Prod.fst).filter (fun l => !(loaded.contains l)))

/-- The indexed loop of `collectArticles` with the `if i == limit: break`
check at the top of each iteration. -/
def collectLoop (md5hex : String → String)
    (matchRule : String → String → Bool)
    (fetchArticle : String → String → Except PyErr ArticleData)
    (links text categories : Bool) (limit save_intervall : Nat) :
    Nat → List String → CrawlState × ArchiveFS →
    Except PyErr (CrawlState × ArchiveFS)
  | _, [], acc => .ok acc
  | i, l :: rest, acc =>
    if i == limit then .ok acc
    else do
      let acc1 ← collectStep md5hex matchRule fetchArticle links text
        categories save_intervall acc i l
      collectLoop md5hex matchRule fetchArticle links text categories limit
        save_intervall (i + 1) rest acc1

/-- `WikiCrawler.collectArticles(links, text, categories, limit,
save_intervall)`. -/
def collectArticles (md5hex : String → String)
    (matchRule : String → String → Bool)
    (fetchArticle : String → String → Except PyErr ArticleData)
    (links text categories : Bool) (limit : Option Nat)
    (save_intervall : Nat) (st : CrawlState) (fs : ArchiveFS) :
    Except PyErr (CrawlState × ArchiveFS) := do
  let pending ← pendingArticles st fs
  let lim := limit.getD pending.length
  collectLoop md5hex matchRule fetchArticle links text categories lim
    save_intervall 0 pending (st, fs)

/-! ## Fetcher boundary retries (`WikiCategory._make_request`,
`WikiArticle._load`)

An HTTP attempt is an oracle `attempt : Nat → Except PyErr String` giving
the outcome of `requests.get` + `raise_for_status` for the n-th try of one
URL (`.ok` carries the response text). -/

/-- `WikiCategory.MAX_RETRY`. -/
def MAX_RETRY : Nat := 3

/-- The `for retry in range(MAX_RETRY)` loop of
`WikiCategory._make_request`, over the remaining retry indices: a success
returns at once; a `RequestException` continues while `retry <
MAX_RETRY - 1` and is re-raised on the final attempt.  Falling off the loop
cannot happen for a non-empty index list; Python would return `None` and the
caller would die on an `AttributeError`. -/
def makeRequestGo (attempt : Nat → Except PyErr String) :
    List Nat → Except PyErr String
  | [] => .error .attributeError
  | retry :: rest =>
    match attempt retry with
    | .ok r => .ok r
    | .error e =>
      if retry < MAX_RETRY - 1 then makeRequestGo attempt rest
      else .error e

/-- `WikiCategory._make_request(url)`. -/
def makeRequest (attempt : Nat → Except PyErr String) : Except PyErr String :=
  makeRequestGo attempt (List.range MAX_RETRY)

/-- `WikiArticle._load`: a single `requests.get` +
`raise_for_status`, no retry loop — the first failure propagates. -/
def wikiArticleLoad (attempt : Nat → Except PyErr String) :
    Except PyErr String :=
  attempt 0

/-! ## Concrete instances used by witnesses and counterexamples -/

/-- A concrete stand-in for the md5 digest. -/
def md5c : String → String := fun s => "h" ++ s

/-- A concrete anchored matcher standing in for `re.match` with a literal
pattern. -/
def pmc : String → String → Bool := strIsPrefixOf

/-- Crawler state with one known article and an archive path configured. -/
def c1State : CrawlState :=
  { archive_path := some "arch", article_list := [("L1", "A1")] }

/-- An empty archive directory. -/
def fs0 : ArchiveFS := {}

/-- Crawler state with one known article, no archive path. -/
def c2State : CrawlState := { article_list := [("L1", "A1")] }

/-- A fetcher whose article page load always fails. -/
def fetchBad : String → String → Except PyErr ArticleData :=
  fun _ _ => .error .fetchError

/-- An article `A` with direct parent category `C`, whose own parent is the
synthetic root. -/
def c3State : CrawlState :=
  { article_list := [("/wiki/A", "A")]
    category_tree := [("/wiki/A", ["/wiki/Category:C"]),
                      ("/wiki/Category:C", [""])]
    category_list := [("/wiki/Category:C", "Category:C")] }

/-- 101 category links. -/
def cs101 : List String := (List.range 101).map (fun i => "c" ++ toString i)

/-- An article `A` whose grandparent generation holds 101 categories. -/
def c4State : CrawlState :=
  { article_list := [("A", "A")]
    category_tree := [("A", ["p"]), ("p", cs101)] }

/-- A visited set that has exactly reached the 100-node cap. -/
def anc100 : List String := (List.range 100).map toString

/-- A graph with no edges. -/
def treeEmpty : String → List String := fun _ => []

/-- A fetcher returning no subcategories and no pages. -/
def fetchEmptyCat : String → FetchResult := fun _ => ⟨[], []⟩

/-- A fetcher discovering one subcategory and one page. -/
def fetchOneCat : String → FetchResult :=
  fun l => if l = "CL" then ⟨[("S1", "Category:S1")], [("P1", "P1")]⟩ else ⟨[], []⟩

/-- A category `CL` already known with a recorded parent edge to `X`. -/
def c5State : CrawlState :=
  { category_tree := [("CL", ["/wiki/Category:X"])] }

/-- Article skip configuration: one explicit name, two pattern rules. -/
def c6State : CrawlState :=
  { skip_articles := ["Bad"], skip_article_rules := ["Ru1", "Ru2"] }

/-- An HTTP oracle that fails on every attempt. -/
def attAllFail : Nat → Except PyErr String := fun _ => .error .fetchError

/-- An HTTP oracle with a transient failure: the first attempt fails, every
retry succeeds. -/
def attRecover : Nat → Except PyErr String :=
  fun i => if i == 0 then .error .fetchError else .ok "page"

/-! ## Basic lemmas about the embedded Python collections -/

theorem pyDictGet?_pyDictSet {α : Type} (d : List (String × α)) (k n : String)
    (v : α) :
    pyDictGet? (pyDictSet d k v) n = if n = k then some v else pyDictGet? d n := by
  induction d with
  | nil =>
    by_cases h : n = k
    · subst h; simp [pyDictSet, pyDictGet?]
    · have h2 : ¬ k = n := fun hc => h hc.symm
      simp [pyDictSet, pyDictGet?, beq_iff_eq, h, h2]
  | cons p rest ih =>
    by_cases hpk : p.1 = k
    · by_cases hn : n = k
      · subst hn
        simp [pyDictSet, pyDictGet?, beq_iff_eq, hpk]
      · have hpn : ¬ p.1 = n := by rw [hpk]; exact fun hc => hn hc.symm
        have hkn : ¬ k = n := fun hc => hn hc.symm
        simp [pyDictSet, pyDictGet?, beq_iff_eq, hpk, hpn, hn, hkn]
    · by_cases hn : n = k
      · subst hn
        have hpn : ¬ p.1 = n := hpk
        simp [pyDictSet, pyDictGet?, beq_iff_eq, hpk, hpn, ih]
      · simp [pyDictSet, pyDictGet?, beq_iff_eq, hpk, hn, ih]

theorem ddGet_pyDictSet (d : List (String × List String)) (k n : String)
    (v : List String) :
    ddGet (pyDictSet d k v) n = if n = k then v else ddGet d n := by
  by_cases h : n = k <;> simp [ddGet, pyDictGet?_pyDictSet, h]

theorem ddGet_ddAppend (d : List (String × List String)) (k n x : String) :
    ddGet (ddAppend d k x) n = if n = k then ddGet d k ++ [x] else ddGet d n := by
  simp [ddAppend, ddGet_pyDictSet]

theorem ddGet_isPrefix_ddAppend (d : List (String × List String))
    (k n x : String) : ddGet d n <+: ddGet (ddAppend d k x) n := by
  rw [ddGet_ddAppend]
  by_cases h : n = k
  · subst h; simp
  · simp [h]

theorem ddGet_isPrefix_foldl_ddAppend {β : Type} (f : β → String)
    (l : List β) (c : String) :
    ∀ (t : List (String × List String)) (n : String),
      ddGet t n <+: ddGet (l.foldl (fun t kv => ddAppend t (f kv) c) t) n := by
  induction l with
  | nil => intro t n; exact ⟨[], by simp⟩
  | cons b rest ih =>
    intro t n
    exact (ddGet_isPrefix_ddAppend t (f b) n c).trans (ih (ddAppend t (f b) c) n)

theorem length_le_pySetInsert (s : List String) (x : String) :
    s.length ≤ (pySetInsert s x).length := by
  unfold pySetInsert
  split
  · exact Nat.le_refl _
  · simp only [List.length_append, List.length_singleton]
    omega

theorem length_le_pySetUnion (l : List String) :
    ∀ s : List String, s.length ≤ (pySetUnion s l).length := by
  induction l with
  | nil => intro s; exact Nat.le_refl _
  | cons a t ih =>
    intro s
    exact Nat.le_trans (length_le_pySetInsert s a) (ih (pySetInsert s a))

theorem mem_pySetInsert (y : String) (s : List String) (x : String) :
    y ∈ pySetInsert s x ↔ y ∈ s ∨ y = x := by
  by_cases h : x ∈ s
  · simp only [pySetInsert, if_pos h]
    constructor
    · exact fun hy => Or.inl hy
    · rintro (hy | hy)
      · exact hy
      · rw [hy]; exact h
  · simp [pySetInsert, if_neg h, List.mem_append]

theorem length_lt_pySetUnion (l : List String) :
    ∀ (s : List String) (x : String), x ∈ l → x ∉ s →
      s.length + 1 ≤ (pySetUnion s l).length := by
  induction l with
  | nil => intro s x hx; exact absurd hx (List.not_mem_nil x)
  | cons a t ih =>
    intro s x hx hs
    by_cases hxa : x = a
    · subst hxa
      have hins : pySetInsert s x = s ++ [x] := by simp [pySetInsert, hs]
      have h1 : s.length + 1 ≤ (pySetInsert s x).length := by
        rw [hins]; simp
      exact Nat.le_trans h1 (length_le_pySetUnion t (pySetInsert s x))
    · have hxt : x ∈ t := by
        rcases List.mem_cons.mp hx with h | h
        · exact absurd h hxa
        · exact h
      have hxins : x ∉ pySetInsert s a := by
        rw [mem_pySetInsert]; rintro (h | h)
        · exact hs h
        · exact hxa h
      have h2 := ih (pySetInsert s a) x hxt hxins
      have h3 := length_le_pySetInsert s a
      calc s.length + 1 ≤ (pySetInsert s a).length + 1 := by omega
        _ ≤ (pySetUnion (pySetInsert s a) t).length := h2
        _ = (pySetUnion s (a :: t)).length := rfl

/-! ## Termination of the ancestor loop -/

theorem ancestorLoop_succ (tree : String → List String) (f : Nat)
    (gen anc : List String) :
    ancestorLoop tree (f + 1) gen anc =
      if (gen.any (fun a => a != "")) ∧ anc.length < 100 then
        ancestorLoop tree f
          (pySetDiff (gen.foldl (fun ng p => pySetUnion ng (tree p)) []) anc)
          (pySetUnion anc
            (pySetDiff (gen.foldl (fun ng p => pySetUnion ng (tree p)) []) anc))
      else anc := rfl

/-- Once the visited set has reached the 100-node cap, the loop performs no
further iteration. -/
theorem ancestorLoop_cap (tree : String → List String) (fuel : Nat)
    (gen anc : List String) (h : 100 ≤ anc.length) :
    ancestorLoop tree fuel gen anc = anc := by
  cases fuel with
  | zero => rfl
  | succ f =>
    rw [ancestorLoop_succ, if_neg]
    rintro ⟨-, h2⟩
    omega

/-- An empty frontier stops the loop at once. -/
theorem ancestorLoop_nil_gen (tree : String → List String) (fuel : Nat)
    (anc : List String) : ancestorLoop tree fuel [] anc = anc := by
  cases fuel with
  | zero => rfl
  | succ f =>
    rw [ancestorLoop_succ, if_neg]
    rintro ⟨h1, -⟩
    simp at h1

/-- The loop needs at most `101 - |visited|` passes to reach its exit
condition: the result does not depend on any fuel at least that large, so
the Python `while` loop terminates on every graph, cyclic ones included. -/
theorem ancestorLoop_fuel_stable (tree : String → List String) :
    ∀ (f₁ f₂ : Nat) (gen anc : List String),
      101 - anc.length ≤ f₁ → 101 - anc.length ≤ f₂ →
      ancestorLoop tree f₁ gen anc = ancestorLoop tree f₂ gen anc := by
  intro f₁
  induction f₁ with
  | zero =>
    intro f₂ gen anc h₁ h₂
    have hcap : 100 ≤ anc.length := by omega
    rw [ancestorLoop_cap tree 0 gen anc hcap, ancestorLoop_cap tree f₂ gen anc hcap]
  | succ f ih =>
    intro f₂ gen anc h₁ h₂
    by_cases hcap : 100 ≤ anc.length
    · rw [ancestorLoop_cap tree _ gen anc hcap, ancestorLoop_cap tree f₂ gen anc hcap]
    · have hlen : anc.length ≤ 99 := by omega
      cases f₂ with
      | zero => omega
      | succ f₂ =>
        rw [ancestorLoop_succ, ancestorLoop_succ]
        by_cases hcond : (gen.any (fun a => a != "")) ∧ anc.length < 100
        · rw [if_pos hcond, if_pos hcond]
          by_cases hng :
              pySetDiff (gen.foldl (fun ng p => pySetUnion ng (tree p)) []) anc = []
          · rw [hng]
            rw [ancestorLoop_nil_gen, ancestorLoop_nil_gen]
          · obtain ⟨x, hx⟩ := List.exists_mem_of_ne_nil _ hng
            have hxanc : x ∉ anc := by
              have := (List.mem_filter.mp hx).2
              exact of_decide_eq_true this
            have hgrow :
                anc.length + 1 ≤
                  (pySetUnion anc
                    (pySetDiff (gen.foldl (fun ng p => pySetUnion ng (tree p)) [])
                      anc)).length :=
              length_lt_pySetUnion _ anc x hx hxanc
            exact ih f₂ _ _ (by omega) (by omega)
        · rw [if_neg hcond, if_neg hcond]

/-! ## Index parsing lemmas -/

theorem readIndexLines_wf_cons (line : String) (rest : List String)
    (h : indexLineWF line = true) :
    readIndexLines (line :: rest) =
      (readIndexLines rest).map (fun ls => indexLineLink line :: ls) := by
  have hlen : (pySplitEq (pyStrip line)).length = 2 := by
    simpa [indexLineWF] using h
  obtain ⟨a, b, hab⟩ := List.length_eq_two.mp hlen
  simp [readIndexLines, hab, indexLineLink]

theorem readIndexLines_malformed_cons (line : String) (rest : List String)
    (h : indexLineWF line = false) :
    readIndexLines (line :: rest) = .error .valueError := by
  have hlen : (pySplitEq (pyStrip line)).length ≠ 2 := by
    simpa [indexLineWF] using h
  rcases hs : pySplitEq (pyStrip line) with _ | ⟨a, _ | ⟨b, _ | ⟨c, t⟩⟩⟩
  · simp [readIndexLines, hs]
  · simp [readIndexLines, hs]
  · rw [hs] at hlen; simp at hlen
  · simp [readIndexLines, hs]

/-- A run of well-formed lines followed by one malformed line fails the
whole read with `ValueError`, whatever comes after. -/
theorem readIndexLines_stops_at_malformed (bad : String) (rest : List String) :
    ∀ pre : List String, (∀ l ∈ pre, indexLineWF l = true) →
      indexLineWF bad = false →
      readIndexLines (pre ++ bad :: rest) = .error .valueError := by
  intro pre
  induction pre with
  | nil => intro _ hbad; exact readIndexLines_malformed_cons bad rest hbad
  | cons p ps ih =>
    intro hpre hbad
    have hp : indexLineWF p = true := hpre p (by simp)
    rw [List.cons_append, readIndexLines_wf_cons p _ hp,
      ih (fun l hl => hpre l (by simp [hl])) hbad]
    rfl

/-- A fully well-formed index reads back the link of every line in
order. -/
theorem readIndexLines_all_wf :
    ∀ lines : List String, (∀ l ∈ lines, indexLineWF l = true) →
      readIndexLines lines = .ok (lines.map indexLineLink) := by
  intro lines
  induction lines with
  | nil => intro _; rfl
  | cons p ps ih =>
    intro hl
    have hp : indexLineWF p = true := hl p (by simp)
    rw [readIndexLines_wf_cons p ps hp, ih (fun l hm => hl l (by simp [hm]))]
    rfl

/-! ## Article-link resolution lemmas -/

theorem resolveArticleLink_not_found (article_list : List (String × String))
    (article : String) (h : ∀ p ∈ article_list, p.2 ≠ article) :
    resolveArticleLink article_list article = .error .indexError := by
  have hfil : article_list.filter (fun p => p.2 == article) = [] := by
    rw [List.filter_eq_nil_iff]
    intro p hp
    simpa [beq_iff_eq] using h p hp
  simp [resolveArticleLink, hfil]

/-! ## addCategory edge lemmas -/

/-- Whenever the initial `self.category_tree[cat.link] = root` assignment
leaves node `n`'s parent list unchanged, the rest of `addCategory` only
appends to it. -/
theorem addCategory_tree_extends (fetchCat : String → FetchResult)
    (st : CrawlState) (name : String) (link : Option String)
    (root : Option (List String)) (n : String)
    (hbase : ddGet (pyDictSet st.category_tree (mkWikiCategory name link).link
        (root.getD [""])) n = ddGet st.category_tree n) :
    ddGet st.category_tree n <+:
      ddGet (addCategory fetchCat st name link root).1.category_tree n := by
  have p1 := ddGet_isPrefix_foldl_ddAppend Prod.fst
    (fetchCat (mkWikiCategory name link).link).subcategories
    (mkWikiCategory name link).link
    (pyDictSet st.category_tree (mkWikiCategory name link).link (root.getD [""])) n
  have p2 := ddGet_isPrefix_foldl_ddAppend Prod.fst
    (fetchCat (mkWikiCategory name link).link).pages
    (mkWikiCategory name link).link
    ((fetchCat (mkWikiCategory name link).link).subcategories.foldl
      (fun t kv => ddAppend t (Prod.fst kv) (mkWikiCategory name link).link)
      (pyDictSet st.category_tree (mkWikiCategory name link).link (root.getD [""]))) n
  rw [hbase] at p1
  exact p1.trans p2

/-! ## Claim theorems -/

/-- C1 (code bug): `saveArticle` never appends the `digest=link` line to
`index.txt` — the final `print` lacks `file=fp`, so the line lands on
stdout and the index file is unchanged for every input; concretely, after
archiving article `L1` the index is still empty, its line sits on stdout,
and a re-run's pending set contains `L1` again, so re-running collects it a
second time instead of zero additional articles. -/
theorem C1_index_line_goes_to_stdout (md5hex : String → String)
    (st : CrawlState) (fs : ArchiveFS) (article_link : String)
    (article_text : List String) :
    (saveArticle md5hex st fs article_link article_text).2.indexFile =
      fs.indexFile ∧
    (saveArticle md5c c1State fs0 "L1" ["line1"]).2.indexFile = [] ∧
    (saveArticle md5c c1State fs0 "L1" ["line1"]).2.stdout = ["hL1=L1"] ∧
    pendingArticles (saveArticle md5c c1State fs0 "L1" ["line1"]).1
      (saveArticle md5c c1State fs0 "L1" ["line1"]).2 = .ok ["L1"] := by
  refine ⟨?_, by decide, by decide, by decide⟩
  unfold saveArticle
  cases st.archive_path <;> rfl

/-- C2 (code bug): when an article's page load raises, the `except` handler
runs `self.broken_links.append(...)`; `broken_links` was never initialized
by `_initVariables`, so `collectArticles` aborts with `AttributeError`
instead of recording a "broken link" reason and continuing with the next
pending article. -/
theorem C2_fetch_failure_raises :
    collectArticles md5c pmc fetchBad true true true none 10 c2State fs0 =
      .error .attributeError := by
  decide

/-- C3 (code bug): `retrieveCategories` never adds the seed generation (the
article's direct parents) to the visited ancestor set — `ancestors` is
updated only after the frontier has been replaced by the next generation.
Concretely, article `A` has direct parent `Category:C` recorded in the
graph and in the name index, yet the returned category list is empty. -/
theorem C3_direct_parents_missing :
    ddGet c3State.category_tree "/wiki/A" = ["/wiki/Category:C"] ∧
    pyDictGet? c3State.category_list "/wiki/Category:C" = some "Category:C" ∧
    retrieveCategoriesE c3State "A" = .ok [] := by
  decide

/-- C4 (amended): the ancestor traversal terminates on every graph, cyclic
ones included — the loop reaches its exit condition within `101 - |visited|`
passes, so its result is independent of any fuel at least that large — and
once the visited set has reached 100 nodes no further pass runs; the cap
bounds entry into an iteration, not the final size of the visited set,
which a single generation can push beyond 100. -/
theorem C4_traversal_terminates_under_cap (tree : String → List String)
    (gen anc : List String) (f₁ f₂ : Nat)
    (h₁ : 101 - anc.length ≤ f₁) (h₂ : 101 - anc.length ≤ f₂) :
    ancestorLoop tree f₁ gen anc = ancestorLoop tree f₂ gen anc ∧
    (100 ≤ anc.length → ancestorLoop tree f₁ gen anc = anc) :=
  ⟨ancestorLoop_fuel_stable tree f₁ f₂ gen anc h₁ h₂,
   fun hcap => ancestorLoop_cap tree f₁ gen anc hcap⟩

theorem C4_witness :
    ancestorLoop treeEmpty 101 ["g"] anc100 =
      ancestorLoop treeEmpty 150 ["g"] anc100 ∧
    (100 ≤ anc100.length → ancestorLoop treeEmpty 101 ["g"] anc100 = anc100) :=
  C4_traversal_terminates_under_cap treeEmpty ["g"] anc100 101 150
    (by decide) (by decide)

set_option maxRecDepth 10000 in
/-- C4 counterexample: with 101 categories in the grandparent generation the
loop stops only after the visited set has grown to 101 nodes — the claim
that the visited set never exceeds the 100-node cap is false. -/
theorem C4_visited_exceeds_cap :
    (retrieveAncestorsOf c4State "A").map List.length = .ok 101 := by
  decide

/-- C5 (amended): `addCategory` preserves and at most appends to the parent
list of every node other than the (re-)added category itself, and when the
caller passes the category's current parent list as `root` — as
`followDeeper` does — every node's parent list, the category's own
included, is only extended.  The re-added category's own list, however, is
replaced by the supplied root (`['']` when none is given). -/
theorem C5_addCategory_edge_additive (fetchCat : String → FetchResult)
    (st : CrawlState) (name : String) (link : Option String)
    (root : Option (List String)) (n : String)
    (hn : n ≠ (mkWikiCategory name link).link) :
    (ddGet st.category_tree n <+:
      ddGet (addCategory fetchCat st name link root).1.category_tree n) ∧
    (root = some (ddGet st.category_tree (mkWikiCategory name link).link) →
      ∀ m : String, ddGet st.category_tree m <+:
        ddGet (addCategory fetchCat st name link root).1.category_tree m) := by
  constructor
  · refine addCategory_tree_extends fetchCat st name link root n ?_
    rw [ddGet_pyDictSet, if_neg hn]
  · intro hroot m
    refine addCategory_tree_extends fetchCat st name link root m ?_
    rw [hroot, ddGet_pyDictSet]
    by_cases hm : m = (mkWikiCategory name link).link
    · rw [if_pos hm, hm]; rfl
    · rw [if_neg hm]

theorem C5_witness :
    (ddGet c5State.category_tree "other" <+:
      ddGet (addCategory fetchOneCat c5State "N" (some "CL")
        (some ["/wiki/Category:X"])).1.category_tree "other") ∧
    (some ["/wiki/Category:X"] =
        some (ddGet c5State.category_tree
          (mkWikiCategory "N" (some "CL")).link) →
      ∀ m : String, ddGet c5State.category_tree m <+:
        ddGet (addCategory fetchOneCat c5State "N" (some "CL")
          (some ["/wiki/Category:X"])).1.category_tree m) :=
  C5_addCategory_edge_additive fetchOneCat c5State "N" (some "CL")
    (some ["/wiki/Category:X"]) "other" (by decide)

/-- C5 counterexample: re-adding the known category `CL` with the default
`root=None` replaces its parent list by `['']`: the previously recorded
edge to `/wiki/Category:X` is destroyed, so re-adding does not preserve all
prior edges. -/
theorem C5_readd_destroys_own_edges :
    "/wiki/Category:X" ∈ ddGet c5State.category_tree "CL" ∧
    "/wiki/Category:X" ∉
      ddGet (addCategory fetchEmptyCat c5State "N" (some "CL")
        none).1.category_tree "CL" ∧
    ddGet (addCategory fetchEmptyCat c5State "N" (some "CL")
      none).1.category_tree "CL" = [""] := by
  decide

/-- C6 (code bug): a name in the explicit skip set, and likewise a name
matching the first skip rule, makes `articleIsValid` raise
`AttributeError` — both branches run `self.skipped_articles.append[name] =
...` on a dict, which has no `append` — instead of recording the reason and
returning `False`; a name matching nothing still passes. -/
theorem C6_skip_match_raises :
    articleIsValid pmc c6State "Bad" = .error .attributeError ∧
    articleIsValid pmc c6State "Ru1-name" = .error .attributeError ∧
    articleIsValid pmc c6State "Fine" = .ok true := by
  decide

/-- C7 (amended): `readIndex` does not tolerate a malformed line: the first
line without exactly one `=` separator raises `ValueError` and fails the
whole read, whatever well-formed entries precede it; the links of the
preceding entries are returned only when every line is well-formed. -/
theorem C7_readIndex_fails_on_malformed (pre : List String) (bad : String)
    (rest lines : List String)
    (hpre : ∀ l ∈ pre, indexLineWF l = true)
    (hbad : indexLineWF bad = false)
    (hlines : ∀ l ∈ lines, indexLineWF l = true) :
    readIndexLines (pre ++ bad :: rest) = .error .valueError ∧
    readIndexLines lines = .ok (lines.map indexLineLink) :=
  ⟨readIndexLines_stops_at_malformed bad rest pre hpre hbad,
   readIndexLines_all_wf lines hlines⟩

theorem C7_witness :
    readIndexLines (["aaa=L1"] ++ "bro" :: []) = .error .valueError ∧
    readIndexLines ["bbb=L2", "ccc=L3"] =
      .ok (["bbb=L2", "ccc=L3"].map indexLineLink) :=
  C7_readIndex_fails_on_malformed ["aaa=L1"] "bro" [] ["bbb=L2", "ccc=L3"]
    (by decide) (by decide) (by decide)

/-- C7 counterexample: an index whose last line is truncated (no `=`) makes
`readIndex` fail with `ValueError` instead of returning the link of the
preceding well-formed entry. -/
theorem C7_truncated_line_not_tolerated :
    readIndexLines ["aaa=L1", "trunc"] = .error .valueError ∧
    readIndexLines ["aaa=L1", "trunc"] ≠ .ok ["L1"] := by
  decide

/-- C8 (confirmed): `followDeeper(2)` equals `followDeeper(1)` run twice —
each level snapshots the frontier, clears it and expands only the snapshot,
so levels compose; the whole crawler state (graph, category index, article
index, frontier) coincides. -/
theorem C8_followDeeper_composes (matchRule : String → String → Bool)
    (fetchCat : String → FetchResult) (st : CrawlState) :
    followDeeper matchRule fetchCat 2 st =
      followDeeper matchRule fetchCat 1 (followDeeper matchRule fetchCat 1 st) :=
  rfl

/-- C9 (amended): category page loads (`_make_request`) retry a transient
failure up to `MAX_RETRY = 3` attempts and re-raise the final error, but
article page loads (`WikiArticle._load`) perform a single attempt with no
retry: the first failure propagates. -/
theorem C9_fetch_retry_semantics (att1 att2 : Nat → Except PyErr String)
    (err : Nat → PyErr) (r : String)
    (h1 : ∀ i, i < 3 → att1 i = .error (err i))
    (h2 : att2 0 = .error (err 0)) (h3 : att2 1 = .ok r) :
    makeRequest att1 = .error (err 2) ∧
    makeRequest att2 = .ok r ∧
    wikiArticleLoad att2 = .error (err 0) ∧
    wikiArticleLoad att1 = .error (err 0) := by
  refine ⟨?_, ?_, ?_, ?_⟩
  · have e0 := h1 0 (by omega)
    have e1 := h1 1 (by omega)
    have e2 := h1 2 (by omega)
    simp [makeRequest, MAX_RETRY, makeRequestGo, e0, e1, e2]
  · simp [makeRequest, MAX_RETRY, makeRequestGo, h2, h3]
  · simpa [wikiArticleLoad] using h2
  · simpa [wikiArticleLoad] using h1 0 (by omega)

theorem C9_witness :
    makeRequest attAllFail = .error .fetchError ∧
    makeRequest attRecover = .ok "page" ∧
    wikiArticleLoad attRecover = .error .fetchError ∧
    wikiArticleLoad attAllFail = .error .fetchError :=
  C9_fetch_retry_semantics attAllFail attRecover (fun _ => .fetchError) "page"
    (fun _ _ => rfl) rfl rfl

/-- C9 counterexample: under a transient failure of the first attempt with
every retry succeeding, the category boundary recovers but the article page
load fails — article loads are not retried up to 3 attempts. -/
theorem C9_article_load_never_retries :
    wikiArticleLoad attRecover = .error .fetchError ∧
    makeRequest attRecover = .ok "page" := by
  decide

/-- C10 (confirmed): a name that occurs nowhere as a display name of the
article index makes `retrieveCategories` fail with the out-of-bounds
indexing error of `[...][0]` rather than return an empty list, and when
several node ids share the display name the resolution silently picks the
first matching link. -/
theorem C10_resolution_semantics (st : CrawlState) (article : String)
    (l₁ l₂ article2 : String) (dup : List (String × String))
    (h : ∀ p ∈ st.article_list, p.2 ≠ article) :
    retrieveCategoriesE st article = .error .indexError ∧
    resolveArticleLink ((l₁, article2) :: (l₂, article2) :: dup) article2 =
      .ok l₁ := by
  constructor
  · have h1 := resolveArticleLink_not_found st.article_list article h
    simp only [retrieveCategoriesE, retrieveAncestorsOf, h1]
    rfl
  · simp [resolveArticleLink]

theorem C10_witness :
    retrieveCategoriesE c3State "Nope" = .error .indexError ∧
    resolveArticleLink (("l1", "N") :: ("l2", "N") :: []) "N" = .ok "l1" :=
  C10_resolution_semantics c3State "Nope" "l1" "l2" "N" [] (by decide)

end WikiAPI
